import Mathlib

/-!
Shallow embedding of `crm/schema.py`: the four graphene mutations
`CreateCustomer`, `BulkCreateCustomers`, `CreateProduct`, `CreateOrder`,
together with the entity store they act on.

Modelling decisions, each noted at the definition it concerns:
* Django's `validate_email` is an external library collaborator, not code of
  this repository; every handler is therefore parameterised by an abstract
  predicate `emailOk : String → Bool` standing for it.
* The Django models (`crm/models.py`) are not part of the provided source;
  the entity store is modelled from the spec (§3, §6): lists of records with
  store-assigned sequential identities, plus get-by-id, filter-by-equality,
  filter-by-id-set, create and bulk-create.
* Prices (`graphene.Float` / spec "positive decimal/float") are modelled as
  exact rationals `Rat`.
* The phone regex `^(\+?\d{10,15}|\d{3}-\d{3}-\d{4})$` is embedded directly,
  with `\d` modelled as an ASCII digit and Python's `$` semantics (a final
  `$` also matches just before one trailing newline).
-/

namespace Crm

/-- A persisted customer row; `phone` is stored as `""` when absent
(the source writes `phone=phone or ""`). Modelled from the spec:
`crm/models.py` is not in the provided source. -/
structure Customer where
  id : Nat
  name : String
  email : String
  phone : String
deriving Repr, DecidableEq

/-- A persisted product row. Modelled from the spec:
`crm/models.py` is not in the provided source. -/
structure Product where
  id : Nat
  name : String
  price : Rat
  stock : Int
deriving Repr, DecidableEq

/-- A persisted order row; `productIds` is the many-to-many set written by
`order.products.set(products)`. Modelled from the spec:
`crm/models.py` is not in the provided source. -/
structure Order where
  id : Nat
  customerId : Nat
  orderDate : Int
  totalAmount : Rat
  productIds : List Nat
deriving Repr, DecidableEq

/-- The relational store behind `Customer.objects` / `Product.objects` /
`Order.objects`. Modelled from the spec: lists of rows, ids assigned
sequentially on insert. -/
structure Store where
  customers : List Customer
  products : List Product
  orders : List Order
deriving Repr, DecidableEq

/-- The empty store. -/
def Store.empty : Store := ⟨[], [], []⟩

/-- The uniform mutation result shape: optional payload entity, `success`
flag and human-readable `message`. -/
structure MutResult (α : Type) where
  payload : Option α
  success : Bool
  message : String
deriving Repr, DecidableEq

/-- `\d` of the source's phone regex, modelled as an ASCII digit. -/
def isDigitChar (c : Char) : Bool := c.isDigit

/-- Core of `^\+?\d{10,15}$` (without the Python `$` newline allowance):
an optional leading `+` followed by 10–15 digits. -/
def matchesIntl (s : String) : Bool :=
  let t := if s.data.head? == some '+' then s.data.tail else s.data
  decide (10 ≤ t.length) && decide (t.length ≤ 15) && t.all isDigitChar

/-- Core of `^\d{3}-\d{3}-\d{4}$` (without the Python `$` newline
allowance): the dashed pattern `NNN-NNN-NNNN`. -/
def matchesDashed (s : String) : Bool :=
  match s.data with
  | [a, b, c, '-', d, e, f, '-', g, h, i, j] =>
      [a, b, c, d, e, f, g, h, i, j].all isDigitChar
  | _ => false

/-- Python `re.match` on a pattern of the form `^pat$`: the final `$` also
matches just before a single trailing newline. -/
def pyFullMatch (core : String → Bool) (s : String) : Bool :=
  core s || (s.data.getLast? == some (Char.ofNat 10) &&
    core (String.mk s.data.dropLast))

/-- The source's phone check
`re.match(r'^(\+?\d{10,15}|\d{3}-\d{3}-\d{4})$', phone)`. -/
def matchesPhone (s : String) : Bool :=
  pyFullMatch (fun t => matchesIntl t || matchesDashed t) s

/-- Python truthiness of the optional `phone` argument (`if phone:`):
`None` and `""` are falsy. -/
def phoneTruthy (phone : Option String) : Bool :=
  match phone with
  | none => false
  | some p => p != ""

/-- `Customer.objects.filter(email=email).exists()`. -/
def emailExists (s : Store) (email : String) : Bool :=
  s.customers.any (fun c => c.email == email)

/-- `CreateCustomer.mutate` (schema.py lines 22–38), parameterised by the
external `validate_email` collaborator `emailOk`. Returns the mutation
result and the store after the call. -/
def createCustomer (emailOk : String → Bool) (s : Store)
    (name email : String) (phone : Option String) :
    MutResult Customer × Store :=
  if emailOk email = false then
    (⟨none, false, "Invalid email format"⟩, s)
  else if emailExists s email then
    (⟨none, false, "Email already exists"⟩, s)
  else if phoneTruthy phone && !matchesPhone (phone.getD "") then
    (⟨none, false, "Invalid phone format"⟩, s)
  else
    let c : Customer :=
      ⟨s.customers.length, name, email, phone.getD ""⟩
    (⟨some c, true, "Customer created successfully"⟩,
      { s with customers := s.customers ++ [c] })

/-- One record of the `customers` list argument of `BulkCreateCustomers`. -/
structure CustomerInput where
  name : String
  email : String
  phone : Option String
deriving Repr, DecidableEq

/-- One iteration of the `for idx, c in enumerate(customers)` loop of
`BulkCreateCustomers.mutate` (schema.py lines 59–74): the accumulator holds
the `created` and `errors` lists. Uniqueness is checked against the store
as it was when the mutation started (`bulk_create` only runs at the end),
so accepted records in the same batch are not cross-checked. -/
def bulkStep (emailOk : String → Bool) (s : Store)
    (acc : List Customer × List String) (c : CustomerInput) :
    List Customer × List String :=
  if emailOk c.email = false then
    (acc.1, acc.2 ++ [c.email ++ ": Invalid email format"])
  else if emailExists s c.email then
    (acc.1, acc.2 ++ [c.email ++ ": Email already exists"])
  else if phoneTruthy c.phone && !matchesPhone (c.phone.getD "") then
    (acc.1, acc.2 ++ [c.email ++ ": Invalid phone format"])
  else
    (acc.1 ++ [⟨s.customers.length + acc.1.length, c.name, c.email,
        c.phone.getD ""⟩], acc.2)

/-- `BulkCreateCustomers.mutate` (schema.py lines 55–79): process every
record in input order, then persist the whole `created` list in one
batch write. Returns `(created_customers, errors)` and the new store. -/
def bulkCreateCustomers (emailOk : String → Bool) (s : Store)
    (inputs : List CustomerInput) :
    (List Customer × List String) × Store :=
  let res := inputs.foldl (bulkStep emailOk s) ([], [])
  (res, { s with customers := s.customers ++ res.1 })

/-- `CreateProduct.mutate` (schema.py lines 94–102); the graphene default
`stock=0` is supplied by the caller. -/
def createProduct (s : Store) (name : String) (price : Rat) (stock : Int) :
    MutResult Product × Store :=
  if price ≤ 0 then
    (⟨none, false, "Price must be positive"⟩, s)
  else if stock < 0 then
    (⟨none, false, "Stock cannot be negative"⟩, s)
  else
    let p : Product := ⟨s.products.length, name, price, stock⟩
    (⟨some p, true, "Product created successfully"⟩,
      { s with products := s.products ++ [p] })

/-- `Product.objects.filter(id__in=product_ids)`: the store rows whose id
occurs in the requested list (each row at most once, in store order). -/
def resolveProducts (s : Store) (productIds : List Nat) : List Product :=
  s.products.filter (fun p => productIds.contains p.id)

/-- `CreateOrder.mutate` (schema.py lines 117–138). `now` is the clock
collaborator's current timestamp (`datetime.now()`), used when
`order_date` is absent. -/
def createOrder (s : Store) (customerId : Nat) (productIds : List Nat)
    (orderDate : Option Int) (now : Int) :
    MutResult Order × Store :=
  match s.customers.find? (fun c => c.id == customerId) with
  | none => (⟨none, false, "Customer not found"⟩, s)
  | some customer =>
    if productIds.isEmpty then
      (⟨none, false, "No products selected"⟩, s)
    else
      let products := resolveProducts s productIds
      if products.length ≠ productIds.length then
        (⟨none, false, "Invalid product ID(s)"⟩, s)
      else
        let total := (products.map Product.price).sum
        let o : Order := ⟨s.orders.length, customer.id,
          orderDate.getD now, total, products.map Product.id⟩
        (⟨some o, true, "Order created successfully"⟩,
          { s with orders := s.orders ++ [o] })

/-- Specification-side characterisation of one `BulkCreateCustomers`
record check: the error string the record produces, or `none` when it is
accepted. Mirrors the branch order of `bulkStep`. -/
def recordError (emailOk : String → Bool) (s : Store)
    (c : CustomerInput) : Option String :=
  if emailOk c.email = false then
    some (c.email ++ ": Invalid email format")
  else if emailExists s c.email then
    some (c.email ++ ": Email already exists")
  else if phoneTruthy c.phone && !matchesPhone (c.phone.getD "") then
    some (c.email ++ ": Invalid phone format")
  else none

/-- Observable fields of a persisted customer (identity dropped). -/
def toTriple (c : Customer) : String × String × String :=
  (c.name, c.email, c.phone)

/-- The fields a bulk record is persisted with: absent/empty phone is
stored as `""`. -/
def inTriple (c : CustomerInput) : String × String × String :=
  (c.name, c.email, c.phone.getD "")

/-- A concrete stand-in for the external email validator, used only to
instantiate universally quantified theorems at concrete inputs. -/
def demoEmailOk : String → Bool := fun s => s.data.any (fun c => c == '@')

/-- A store with one customer (id 0) and one product (id 0). -/
def wStore : Store := ⟨[⟨0, "C", "c@x.com", ""⟩], [⟨0, "P", 10, 0⟩], []⟩

/-- A store already holding a customer with email `a@b.c`. -/
def wStoreEmail : Store := ⟨[⟨0, "C", "a@b.c", ""⟩], [], []⟩

/-- The end-to-end scenario of spec section 8: a customer C and products
P1 (price 10.00) and P2 (price 15.50), created through the mutations. -/
def demoStore : Store :=
  (createProduct (createProduct
    (createCustomer demoEmailOk Store.empty "C" "c@x.com" none).2
    "P1" 10 0).2 "P2" 15.5 0).2

/-- The store `demoStore` evaluates to, written out. -/
def demoStoreLit : Store :=
  ⟨[⟨0, "C", "c@x.com", ""⟩], [⟨0, "P1", 10, 0⟩, ⟨1, "P2", 15.5, 0⟩], []⟩

/-- Three bulk records: one valid, one with a bad email, one with a bad
phone. -/
def demoInputs : List CustomerInput :=
  [⟨"A", "a@b.c", none⟩, ⟨"B", "bad", none⟩, ⟨"C", "c@d.e", some "12"⟩]

lemma resolve_length_lt (s : Store) (pids : List Nat)
    (hnd : (s.products.map Product.id).Nodup) (hdup : ¬ pids.Nodup) :
    (resolveProducts s pids).length < pids.length := by
  have h1 : ((resolveProducts s pids).map Product.id).Nodup :=
    hnd.sublist ((List.filter_sublist _).map _)
  have hsubset : ((resolveProducts s pids).map Product.id).toFinset ⊆
      pids.toFinset := by
    intro a ha
    rw [List.mem_toFinset] at ha ⊢
    rcases List.mem_map.mp ha with ⟨p, hp, rfl⟩
    simpa using (List.mem_filter.mp hp).2
  have hc1 : (resolveProducts s pids).length =
      ((resolveProducts s pids).map Product.id).toFinset.card := by
    rw [List.toFinset_card_of_nodup h1, List.length_map]
  have hc2 : pids.toFinset.card < pids.length := by
    rw [List.card_toFinset]
    rcases lt_or_eq_of_le (List.dedup_sublist pids).length_le with h | h
    · exact h
    · exact absurd (by
        rw [← (List.dedup_sublist pids).eq_of_length h]
        exact List.nodup_dedup pids) hdup
  calc (resolveProducts s pids).length
      = ((resolveProducts s pids).map Product.id).toFinset.card := hc1
    _ ≤ pids.toFinset.card := Finset.card_le_card hsubset
    _ < pids.length := hc2

lemma bulkStep_eq (ek : String → Bool) (s : Store)
    (acc : List Customer × List String) (c : CustomerInput) :
    bulkStep ek s acc c =
      match recordError ek s c with
      | some e => (acc.1, acc.2 ++ [e])
      | none => (acc.1 ++ [⟨s.customers.length + acc.1.length, c.name,
          c.email, c.phone.getD ""⟩], acc.2) := by
  unfold bulkStep recordError
  split_ifs <;> rfl

lemma bulk_foldl (ek : String → Bool) (s : Store) (inputs : List CustomerInput) :
    ∀ acc : List Customer × List String,
      (inputs.foldl (bulkStep ek s) acc).1.map toTriple
        = acc.1.map toTriple ++
          (inputs.filter (fun c => (recordError ek s c).isNone)).map inTriple
    ∧ (inputs.foldl (bulkStep ek s) acc).2
        = acc.2 ++ inputs.filterMap (recordError ek s)
    ∧ (inputs.foldl (bulkStep ek s) acc).1.length +
        (inputs.foldl (bulkStep ek s) acc).2.length
        = acc.1.length + acc.2.length + inputs.length := by
  induction inputs with
  | nil => intro acc; simp
  | cons c cs ih =>
    intro acc
    rw [List.foldl_cons]
    rcases herr : recordError ek s c with _ | e
    · have hstep : bulkStep ek s acc c =
        (acc.1 ++ [⟨s.customers.length + acc.1.length, c.name, c.email,
          c.phone.getD ""⟩], acc.2) := by rw [bulkStep_eq, herr]
      rw [hstep]
      rcases ih (acc.1 ++ [⟨s.customers.length + acc.1.length, c.name,
          c.email, c.phone.getD ""⟩], acc.2) with ⟨ih1, ih2, ih3⟩
      refine ⟨?_, ?_, ?_⟩
      · rw [ih1]
        simp [List.filter_cons, herr, toTriple, inTriple]
      · rw [ih2]
        simp [List.filterMap_cons, herr]
      · rw [ih3]
        simp
        omega
    · have hstep : bulkStep ek s acc c = (acc.1, acc.2 ++ [e]) := by
        rw [bulkStep_eq, herr]
      rw [hstep]
      rcases ih (acc.1, acc.2 ++ [e]) with ⟨ih1, ih2, ih3⟩
      refine ⟨?_, ?_, ?_⟩
      · rw [ih1]
        simp [List.filter_cons, herr]
      · rw [ih2]
        simp [List.filterMap_cons, herr]
      · rw [ih3]
        simp
        omega

lemma recordError_email_colon (ek : String → Bool) (s : Store)
    (c : CustomerInput) (e : String) (h : recordError ek s c = some e) :
    ∃ r, e = c.email ++ ": " ++ r := by
  unfold recordError at h
  split_ifs at h <;> injection h with h <;> subst h
  · exact ⟨"Invalid email format", by rw [String.append_assoc]; rfl⟩
  · exact ⟨"Email already exists", by rw [String.append_assoc]; rfl⟩
  · exact ⟨"Invalid phone format", by rw [String.append_assoc]; rfl⟩

/-- C1: the `CreateOrder` checks run in order and short-circuit on first
failure: an unresolved `customer_id` fails "Customer not found" regardless
of `product_ids`; then empty `product_ids` fails "No products selected";
then a mismatch between the count of resolved (distinct) products and the
raw requested-id count fails "Invalid product ID(s)" — in particular any
request whose `product_ids` duplicates a valid id fails this way. -/
theorem createOrder_checks (s : Store) (cid : Nat) (pids : List Nat)
    (od : Option Int) (now : Int) :
    (s.customers.find? (fun c => c.id == cid) = none →
      createOrder s cid pids od now = (⟨none, false, "Customer not found"⟩, s))
  ∧ ((s.customers.find? (fun c => c.id == cid)).isSome → pids = [] →
      createOrder s cid pids od now = (⟨none, false, "No products selected"⟩, s))
  ∧ ((s.customers.find? (fun c => c.id == cid)).isSome → pids ≠ [] →
      (resolveProducts s pids).length ≠ pids.length →
      createOrder s cid pids od now = (⟨none, false, "Invalid product ID(s)"⟩, s))
  ∧ ((s.customers.find? (fun c => c.id == cid)).isSome → pids ≠ [] →
      (s.products.map Product.id).Nodup → ¬ pids.Nodup →
      createOrder s cid pids od now =
        (⟨none, false, "Invalid product ID(s)"⟩, s)) := by
  refine ⟨fun h => ?_, fun h hnil => ?_, fun h hnil hlen => ?_,
    fun h hnil hnd hdup => ?_⟩
  · simp [createOrder, h]
  · rcases Option.isSome_iff_exists.mp h with ⟨c, hc⟩
    subst hnil
    simp [createOrder, hc]
  · rcases Option.isSome_iff_exists.mp h with ⟨c, hc⟩
    simp [createOrder, hc, List.isEmpty_iff, hnil, hlen]
  · rcases Option.isSome_iff_exists.mp h with ⟨c, hc⟩
    have hlen := Nat.ne_of_lt (resolve_length_lt s pids hnd hdup)
    simp [createOrder, hc, List.isEmpty_iff, hnil, hlen]

/-- Witness for C1 at concrete stores and inputs. -/
theorem createOrder_checks_witness :
    createOrder wStore 1 [0] none 0 =
      (⟨none, false, "Customer not found"⟩, wStore)
  ∧ createOrder wStore 0 [] none 0 =
      (⟨none, false, "No products selected"⟩, wStore)
  ∧ createOrder wStore 0 [5] none 0 =
      (⟨none, false, "Invalid product ID(s)"⟩, wStore)
  ∧ createOrder wStore 0 [0, 0] none 0 =
      (⟨none, false, "Invalid product ID(s)"⟩, wStore) :=
  ⟨(createOrder_checks wStore 1 [0] none 0).1 (by decide),
   (createOrder_checks wStore 0 [] none 0).2.1 (by decide) rfl,
   (createOrder_checks wStore 0 [5] none 0).2.2.1 (by decide) (by decide)
     (by decide),
   (createOrder_checks wStore 0 [0, 0] none 0).2.2.2 (by decide) (by decide)
     (by decide) (by decide)⟩

/-- C2: every successful `CreateOrder` returns an order whose
`total_amount` is the sum of the prices of the products resolved from the
requested `product_ids`, and whose associated product set is exactly that
set of resolved products. -/
theorem createOrder_total (s : Store) (cid : Nat) (pids : List Nat)
    (od : Option Int) (now : Int) (o : Order)
    (h : (createOrder s cid pids od now).1.payload = some o) :
    o.totalAmount = ((resolveProducts s pids).map Product.price).sum
  ∧ o.productIds = (resolveProducts s pids).map Product.id := by
  unfold createOrder at h
  rcases hfind : s.customers.find? (fun c => c.id == cid) with _ | c
  · rw [hfind] at h; simp at h
  · rw [hfind] at h
    by_cases hnil : pids.isEmpty
    · simp [hnil] at h
    · by_cases hlen : (resolveProducts s pids).length ≠ pids.length
      · simp [hnil, hlen] at h
      · simp only [hnil, hlen] at h
        simp at h
        rw [← h]
        subst h
        exact ⟨rfl, rfl⟩

/-- Witness for C2: the end-to-end scenario with prices 10.00 and 15.50
succeeds with total 25.50 and products P1, P2. -/
theorem createOrder_total_witness :
    (createOrder demoStore 0 [0, 1] none 0).1.success = true
  ∧ (createOrder demoStore 0 [0, 1] none 0).1.payload.map Order.totalAmount
      = some (25.5 : Rat)
  ∧ (createOrder demoStore 0 [0, 1] none 0).1.payload.map Order.productIds
      = some [0, 1] := by
  have hs : demoStore = demoStoreLit := by
    norm_num [demoStore, demoStoreLit, createProduct, createCustomer,
      demoEmailOk, emailExists, phoneTruthy, Store.empty]
  rw [hs]
  have h : (createOrder demoStoreLit 0 [0, 1] none 0).1.payload =
      some ⟨0, 0, 0,
        ((resolveProducts demoStoreLit [0, 1]).map Product.price).sum,
        [0, 1]⟩ := rfl
  have h2 := createOrder_total demoStoreLit 0 [0, 1] none 0 _ h
  refine ⟨rfl, ?_, ?_⟩
  · rw [h, Option.map_some', h2.1]
    norm_num [resolveProducts, demoStoreLit]
  · rw [h, Option.map_some', h2.2]
    simp [resolveProducts, demoStoreLit]

/-- C3: for N input records to `BulkCreateCustomers` of which exactly M
fail one of the three per-record checks, the result has exactly N minus M
created customers and exactly M error strings (one per failing record, in
input order), each error string prefixed by that record's email; a
failing record never aborts the rest of the batch. -/
theorem bulk_error_accounting (ek : String → Bool) (s : Store)
    (inputs : List CustomerInput) :
    (bulkCreateCustomers ek s inputs).1.2 = inputs.filterMap (recordError ek s)
  ∧ (bulkCreateCustomers ek s inputs).1.1.length +
      (bulkCreateCustomers ek s inputs).1.2.length = inputs.length
  ∧ (∀ e ∈ (bulkCreateCustomers ek s inputs).1.2,
      ∃ c ∈ inputs, ∃ r, e = c.email ++ ": " ++ r) := by
  obtain ⟨h1, h2, h3⟩ := bulk_foldl ek s inputs ([], [])
  refine ⟨by simpa [bulkCreateCustomers] using h2, by
    simpa [bulkCreateCustomers] using h3, ?_⟩
  intro e he
  have he2 : e ∈ inputs.filterMap (recordError ek s) := by
    simpa [bulkCreateCustomers, h2] using he
  rcases List.mem_filterMap.mp he2 with ⟨c, hc, hce⟩
  exact ⟨c, hc, recordError_email_colon ek s c e hce⟩

/-- Witness for C3: three records of which two fail. -/
theorem bulk_error_accounting_witness :
    (bulkCreateCustomers demoEmailOk Store.empty demoInputs).1.2
      = ["bad: Invalid email format", "c@d.e: Invalid phone format"]
  ∧ (bulkCreateCustomers demoEmailOk Store.empty demoInputs).1.1.length = 1
  ∧ (∃ c ∈ demoInputs, ∃ r,
      "bad: Invalid email format" = c.email ++ ": " ++ r) := by
  have h := bulk_error_accounting demoEmailOk Store.empty demoInputs
  have he : (bulkCreateCustomers demoEmailOk Store.empty demoInputs).1.2
      = ["bad: Invalid email format", "c@d.e: Invalid phone format"] := by
    rw [h.1]; decide
  refine ⟨he, ?_, h.2.2 "bad: Invalid email format" (by rw [he]; decide)⟩
  have hl := h.2.1
  rw [he] at hl
  have h3 : demoInputs.length = 3 := rfl
  rw [h3] at hl
  simp at hl
  omega

/-- C4: for every `CreateCustomer` input whose email is valid and already
belongs to a stored customer, the result is success=false with message
"Email already exists", for every name and every phone value (the
uniqueness check precedes the phone check). -/
theorem createCustomer_email_exists (ek : String → Bool) (s : Store)
    (name email : String) (phone : Option String)
    (hv : ek email = true) (hex : emailExists s email = true) :
    (createCustomer ek s name email phone).1 =
      ⟨none, false, "Email already exists"⟩ := by
  simp [createCustomer, hv, hex]

/-- Witness for C4: duplicate email with an invalid phone still reports
"Email already exists". -/
theorem createCustomer_email_exists_witness :
    (createCustomer demoEmailOk wStoreEmail "X" "a@b.c" (some "zzz")).1 =
      ⟨none, false, "Email already exists"⟩ :=
  createCustomer_email_exists demoEmailOk wStoreEmail "X" "a@b.c"
    (some "zzz") rfl rfl

/-- C5: with a valid fresh email, an absent or empty phone always passes
the phone check; a non-empty phone matching neither accepted pattern
fails with "Invalid phone format"; a phone matching either pattern
passes. -/
theorem createCustomer_phone_check (ek : String → Bool) (s : Store)
    (name email : String)
    (hv : ek email = true) (hfresh : emailExists s email = false) :
    ((createCustomer ek s name email none).1.success = true
      ∧ (createCustomer ek s name email none).1.message =
          "Customer created successfully")
  ∧ ((createCustomer ek s name email (some "")).1.success = true
      ∧ (createCustomer ek s name email (some "")).1.message =
          "Customer created successfully")
  ∧ (∀ p : String, p ≠ "" → matchesPhone p = false →
      (createCustomer ek s name email (some p)).1 =
        ⟨none, false, "Invalid phone format"⟩)
  ∧ (∀ p : String, matchesPhone p = true →
      (createCustomer ek s name email (some p)).1.success = true) := by
  refine ⟨?_, ?_, fun p hp hm => ?_, fun p hm => ?_⟩
  · simp [createCustomer, phoneTruthy, hv, hfresh]
  · simp [createCustomer, phoneTruthy, hv, hfresh]
  · simp [createCustomer, phoneTruthy, hv, hfresh, hp, hm]
  · simp [createCustomer, phoneTruthy, hv, hfresh, hm]

/-- Witness for C5 at concrete phone strings. -/
theorem createCustomer_phone_check_witness :
    (createCustomer demoEmailOk Store.empty "N" "a@b.c" none).1.success = true
  ∧ (createCustomer demoEmailOk Store.empty "N" "a@b.c" (some "abc")).1 =
      ⟨none, false, "Invalid phone format"⟩
  ∧ (createCustomer demoEmailOk Store.empty "N" "a@b.c"
      (some "123-456-7890")).1.success = true :=
  have h := createCustomer_phone_check demoEmailOk Store.empty "N" "a@b.c"
    rfl rfl
  ⟨h.1.1, h.2.2.1 "abc" (by decide) (by decide),
    h.2.2.2 "123-456-7890" (by decide)⟩

/-- C6: `CreateProduct` validates price before stock: price at most 0
fails "Price must be positive" regardless of stock; otherwise negative
stock fails "Stock cannot be negative"; otherwise the product is
persisted with success=true and message "Product created successfully". -/
theorem createProduct_checks (s : Store) (name : String) (price : Rat)
    (stock : Int) :
    (price ≤ 0 →
      createProduct s name price stock =
        (⟨none, false, "Price must be positive"⟩, s))
  ∧ (0 < price → stock < 0 →
      createProduct s name price stock =
        (⟨none, false, "Stock cannot be negative"⟩, s))
  ∧ (0 < price → 0 ≤ stock →
      createProduct s name price stock =
        (⟨some ⟨s.products.length, name, price, stock⟩, true,
          "Product created successfully"⟩,
         { s with products :=
            s.products ++ [⟨s.products.length, name, price, stock⟩] })) := by
  refine ⟨fun h => ?_, fun h1 h2 => ?_, fun h1 h2 => ?_⟩
  · simp [createProduct, h]
  · simp [createProduct, not_le.mpr h1, h2]
  · simp [createProduct, not_le.mpr h1, not_lt.mpr h2]

/-- Witness for C6 at prices 0, -5, 1 and stocks -1, 1, 2. -/
theorem createProduct_checks_witness :
    createProduct Store.empty "P" 0 (-1) =
      (⟨none, false, "Price must be positive"⟩, Store.empty)
  ∧ createProduct Store.empty "P" (-5) 1 =
      (⟨none, false, "Price must be positive"⟩, Store.empty)
  ∧ createProduct Store.empty "P" 1 (-1) =
      (⟨none, false, "Stock cannot be negative"⟩, Store.empty)
  ∧ createProduct Store.empty "P" 1 2 =
      (⟨some ⟨0, "P", 1, 2⟩, true, "Product created successfully"⟩,
        ⟨[], [⟨0, "P", 1, 2⟩], []⟩) :=
  ⟨(createProduct_checks Store.empty "P" 0 (-1)).1 (by decide),
   (createProduct_checks Store.empty "P" (-5) 1).1 (by decide),
   (createProduct_checks Store.empty "P" 1 (-1)).2.1 (by decide) (by decide),
   (createProduct_checks Store.empty "P" 1 2).2.2 (by decide) (by decide)⟩

/-- C7: for every `CreateCustomer` input with a valid fresh email whose
phone (when present and non-empty) matches an accepted pattern, the
result is success=true with message "Customer created successfully" and a
persisted customer whose name, email and phone match the input (an absent
or empty phone is stored as `""`). -/
theorem createCustomer_success (ek : String → Bool) (s : Store)
    (name email : String) (phone : Option String)
    (hv : ek email = true) (hfresh : emailExists s email = false)
    (hph : ∀ p, phone = some p → p ≠ "" → matchesPhone p = true) :
    createCustomer ek s name email phone =
      (⟨some ⟨s.customers.length, name, email, phone.getD ""⟩, true,
        "Customer created successfully"⟩,
       { s with customers :=
          s.customers ++ [⟨s.customers.length, name, email, phone.getD ""⟩] }) := by
  cases phone with
  | none => simp [createCustomer, phoneTruthy, hv, hfresh]
  | some p =>
    by_cases hp : p = ""
    · subst hp
      simp [createCustomer, phoneTruthy, hv, hfresh]
    · have hm := hph p rfl hp
      simp [createCustomer, phoneTruthy, hv, hfresh, hm, hp]

/-- Witness for C7 with a valid international phone. -/
theorem createCustomer_success_witness :
    createCustomer demoEmailOk Store.empty "Alice" "a@b.c"
        (some "+12345678901") =
      (⟨some ⟨0, "Alice", "a@b.c", "+12345678901"⟩, true,
        "Customer created successfully"⟩,
       ⟨[⟨0, "Alice", "a@b.c", "+12345678901"⟩], [], []⟩) :=
  createCustomer_success demoEmailOk Store.empty "Alice" "a@b.c"
    (some "+12345678901") rfl rfl
    (fun p hp _ => by injection hp with hp; rw [← hp]; decide)

/-- C8 counterexample: `CreateCustomer` with an empty name and a valid
fresh email succeeds and persists a customer whose name is the empty
string, refuting the claim that every persisted customer has a non-empty
name. -/
theorem empty_name_persisted :
    (createCustomer demoEmailOk Store.empty "" "a@b.c" none).1.success = true
  ∧ (createCustomer demoEmailOk Store.empty "" "a@b.c" none).2.customers.map
      Customer.name = [""] := by decide

/-- C8 (amended): customers persisted by `CreateCustomer` and
`BulkCreateCustomers` carry the input name verbatim; no non-emptiness
check is performed, so an empty input name yields a persisted customer
with an empty name. -/
theorem persisted_name_verbatim :
    (∀ (ek : String → Bool) (s : Store) (name email : String)
        (phone : Option String) (c : Customer),
      (createCustomer ek s name email phone).1.payload = some c →
      c.name = name)
  ∧ (∀ (ek : String → Bool) (s : Store) (inputs : List CustomerInput),
      (bulkCreateCustomers ek s inputs).1.1.map Customer.name
        = (inputs.filter (fun c => (recordError ek s c).isNone)).map
            CustomerInput.name) := by
  constructor
  · intro ek s name email phone c h
    unfold createCustomer at h
    split_ifs at h
    all_goals simp at h
    subst h
    rfl
  · intro ek s inputs
    have h := (bulk_foldl ek s inputs ([], [])).1
    have h2 := congrArg (List.map (fun t : String × String × String => t.1)) h
    simpa [bulkCreateCustomers, List.map_map, Function.comp, toTriple,
      inTriple] using h2

/-- Witness for the amended C8. -/
theorem persisted_name_verbatim_witness :
    (⟨0, "Bob", "b@c.d", ""⟩ : Customer).name = "Bob" :=
  persisted_name_verbatim.1 demoEmailOk Store.empty "Bob" "b@c.d" none
    ⟨0, "Bob", "b@c.d", ""⟩ rfl

/-- C9: whenever `CreateCustomer`, `CreateProduct` or `CreateOrder`
returns success=false the store is unchanged by the call, and in
`BulkCreateCustomers` the batch write appends exactly the accepted
records, so a record that produced an error string is never written. -/
theorem failure_leaves_store_unchanged :
    (∀ (ek : String → Bool) (s : Store) (name email : String)
        (phone : Option String),
      (createCustomer ek s name email phone).1.success = false →
      (createCustomer ek s name email phone).2 = s)
  ∧ (∀ (s : Store) (name : String) (price : Rat) (stock : Int),
      (createProduct s name price stock).1.success = false →
      (createProduct s name price stock).2 = s)
  ∧ (∀ (s : Store) (cid : Nat) (pids : List Nat) (od : Option Int) (now : Int),
      (createOrder s cid pids od now).1.success = false →
      (createOrder s cid pids od now).2 = s)
  ∧ (∀ (ek : String → Bool) (s : Store) (inputs : List CustomerInput),
      (bulkCreateCustomers ek s inputs).2.customers
        = s.customers ++ (bulkCreateCustomers ek s inputs).1.1
      ∧ (bulkCreateCustomers ek s inputs).1.1.map toTriple
        = (inputs.filter (fun c => (recordError ek s c).isNone)).map inTriple) := by
  refine ⟨?_, ?_, ?_, ?_⟩
  · intro ek s name email phone h
    unfold createCustomer at h ⊢
    split_ifs at h ⊢ <;> rfl
  · intro s name price stock h
    unfold createProduct at h ⊢
    split_ifs at h ⊢ <;> rfl
  · intro s cid pids od now h
    unfold createOrder at h ⊢
    cases hfind : s.customers.find? (fun c => c.id == cid) with
    | none => rfl
    | some c =>
      rw [hfind] at h
      by_cases hnil : pids.isEmpty
      · simp [hnil]
      · by_cases hlen : (resolveProducts s pids).length = pids.length
        · exfalso
          simp [hnil, hlen] at h
        · simp [hnil, hlen]
  · intro ek s inputs
    exact ⟨rfl, by
      simpa [bulkCreateCustomers] using (bulk_foldl ek s inputs ([], [])).1⟩

/-- Witness for C9 at one failing call of each mutation. -/
theorem failure_leaves_store_unchanged_witness :
    (createCustomer demoEmailOk Store.empty "A" "bad" none).2 = Store.empty
  ∧ (createProduct Store.empty "P" 0 0).2 = Store.empty
  ∧ (createOrder Store.empty 7 [0] none 0).2 = Store.empty
  ∧ (bulkCreateCustomers demoEmailOk Store.empty demoInputs).2.customers
      = Store.empty.customers ++
        (bulkCreateCustomers demoEmailOk Store.empty demoInputs).1.1 :=
  ⟨failure_leaves_store_unchanged.1 demoEmailOk Store.empty "A" "bad" none
      rfl,
   failure_leaves_store_unchanged.2.1 Store.empty "P" 0 0 (by decide),
   failure_leaves_store_unchanged.2.2.1 Store.empty 7 [0] none 0 rfl,
   (failure_leaves_store_unchanged.2.2.2 demoEmailOk Store.empty
      demoInputs).1⟩

/-- C10: `created_customers` preserves the relative input order of the
accepted records, and each created customer's name and email equal those
of its input record, with the phone stored as `""` when the input phone
is absent or empty. -/
theorem bulk_created_fields (ek : String → Bool) (s : Store)
    (inputs : List CustomerInput) :
    (bulkCreateCustomers ek s inputs).1.1.map toTriple
      = (inputs.filter (fun c => (recordError ek s c).isNone)).map inTriple := by
  simpa [bulkCreateCustomers] using (bulk_foldl ek s inputs ([], [])).1

end Crm
